import Mathlib

/-
Verification of the linkedin_scraper ingestion-and-sync engine (src/main.py)
against its natural-language specification.

The Python source is shallowly embedded: pure logic becomes Lean functions,
file-system and network state becomes explicit state passing, exceptions that
the source catches become Option results / early returns.  External
collaborators (HTTP transport, BeautifulSoup text extraction, the Supabase
client) are modelled as inputs: the embedding starts where the core logic
starts, at the text / JSON / byte values those collaborators hand back.
-/

set_option maxRecDepth 4000

/-! ## Character classes used by the extraction patterns

`\d` over the ASCII digits and `\s` over Python's whitespace class, as used by
the two regular expressions in `LinkedInFollowerExtractor.extract_followers`.
-/

def isDigitCh (c : Char) : Bool := '0' ≤ c && c ≤ '9'

def isSpaceCh (c : Char) : Bool :=
  c = ' ' || c = '\t' || c = '\n' || c = '\r' || c = '\x0b' || c = '\x0c'

/-- The single-quote character (written by code point to keep sources plain). -/
def quoteCh : Char := Char.ofNat 39

def isQuoteCh (c : Char) : Bool := c = '"' || c = quoteCh

/-- Case-insensitive literal match: does `cs` start with `lit` (given lowercase)? -/
def matchesLitCI (lit : List Char) (cs : List Char) : Bool :=
  decide ((cs.take lit.length).map Char.toLower = lit)

def litFollowers : List Char := ['f','o','l','l','o','w','e','r','s']

def litFollowerCount : List Char :=
  ['f','o','l','l','o','w','e','r','c','o','u','n','t']

/-! ## Pattern matchers

Pattern 1 is `(\d+(?:,\d+)*)\s+followers`, pattern 2 is
`followerCount["\x27]?\s*:\s*["\x27]?(\d+(?:,\d+)*)`, both searched with
`re.IGNORECASE`.  Because a digit is never a whitespace or quote character and
the literal anchors start with non-digit, non-space letters, the greedy
left-to-right reading below is exact: no backtracking can turn a greedy
failure into a success, so each matcher is a faithful rendering of the regex
anchored at the start of `cs`, and the search functions below reproduce
`re.search`'s leftmost-match rule by trying every start position from the
left. -/

/-- Greedy `(?:,\d+)*`, fuelled so it reduces by kernel computation: each
step consumes at least two characters (a comma and a digit), so fuel equal to
the list length never runs out. -/
def commaGroupsF : Nat → List Char → List Char × List Char
  | 0, cs => ([], cs)
  | fuel + 1, cs =>
    match cs with
    | ',' :: rest =>
      let ds := rest.takeWhile isDigitCh
      if ds.isEmpty then ([], ',' :: rest)
      else
        let (g, r) := commaGroupsF fuel (rest.dropWhile isDigitCh)
        (',' :: (ds ++ g), r)
    | cs => ([], cs)

/-- Greedy `(?:,\d+)*`: consume comma-digit-groups, return (consumed, rest). -/
def commaGroups (cs : List Char) : List Char × List Char :=
  commaGroupsF cs.length cs

/-- Pattern 1 anchored at the start of `cs`: on success returns group 1
(the digits-and-commas text). -/
def matchP1At (cs : List Char) : Option (List Char) :=
  let ds := cs.takeWhile isDigitCh
  if ds.isEmpty then none
  else
    let (g, r2) := commaGroups (cs.dropWhile isDigitCh)
    let ws := r2.takeWhile isSpaceCh
    if ws.isEmpty then none
    else if matchesLitCI litFollowers (r2.dropWhile isSpaceCh) then
      some (ds ++ g)
    else none

/-- Skip one optional quote character (`["\x27]?`). -/
def skipOptQuote : List Char → List Char
  | c :: cs => if isQuoteCh c then cs else c :: cs
  | [] => []

/-- Pattern 2 anchored at the start of `cs`: on success returns group 1. -/
def matchP2At (cs : List Char) : Option (List Char) :=
  if matchesLitCI litFollowerCount cs then
    let r1 := skipOptQuote (cs.drop litFollowerCount.length)
    match r1.dropWhile isSpaceCh with
    | ':' :: r4 =>
      let r6 := skipOptQuote (r4.dropWhile isSpaceCh)
      let ds := r6.takeWhile isDigitCh
      if ds.isEmpty then none
      else
        let (g, _) := commaGroups (r6.dropWhile isDigitCh)
        some (ds ++ g)
    | _ => none
  else none

/-- `re.search` for pattern 1: leftmost start position that matches wins. -/
def searchP1 : List Char → Option (List Char)
  | [] => none
  | c :: cs =>
    match matchP1At (c :: cs) with
    | some g => some g
    | none => searchP1 cs

/-- `re.search` for pattern 2. -/
def searchP2 : List Char → Option (List Char)
  | [] => none
  | c :: cs =>
    match matchP2At (c :: cs) with
    | some g => some g
    | none => searchP2 cs

/-- `int(...)` on a digit string. -/
def digitsVal (ds : List Char) : Nat :=
  ds.foldl (fun a c => 10 * a + (c.toNat - 48)) 0

/-- `int(m.group(1).replace(',', ''))`: strip the grouping commas, parse. -/
def groupToInt (g : List Char) : Int :=
  Int.ofNat (digitsVal (g.filter (fun c => !(c = ','))))

/-- `LinkedInFollowerExtractor.extract_followers`.  The `BeautifulSoup(...)
.get_text()` step is an external collaborator (spec section 1); the embedding
receives the extracted text and performs the prioritized pattern search: try
pattern 1 over the whole text, on failure try pattern 2, else `None`. -/
def extract_followers (text : String) : Option Int :=
  match searchP1 text.toList with
  | some g => some (groupToInt g)
  | none =>
    match searchP2 text.toList with
    | some g => some (groupToInt g)
    | none => none

/-- Outcome of `self.session.get(url, timeout=15)`: a transport-level
exception, or a response with a status code and body text. -/
inductive FetchResult
  | transportError
  | response (status : Nat) (text : String)

/-- `LinkedInFollowerExtractor.get_followers`: transport errors are caught and
yield `None`; a non-200 status yields `None`; otherwise extract from the body. -/
def get_followers (r : FetchResult) : Option Int :=
  match r with
  | .transportError => none
  | .response status text =>
    if status ≠ 200 then none else extract_followers text

example : extract_followers "1,234 followers are following this page" = some 1234 := by decide
example : extract_followers "no numbers here" = none := by decide
example : extract_followers "say followerCount: 42 ok" = some 42 := by decide
example : extract_followers "0 followers" = some 0 := by decide

/-! ## JSON values and the posts store -/

/-- The JSON values `r.json()` can produce. -/
inductive Json
  | null
  | bool (b : Bool)
  | num (n : Int)
  | str (s : String)
  | arr (xs : List Json)
  | obj (fields : List (String × Json))

/-- Python truthiness (`if not data`, `if not posts`). -/
def Json.truthy : Json → Bool
  | .null => false
  | .bool b => b
  | .num n => !(n = 0)
  | .str s => !(s = "")
  | .arr xs => !xs.isEmpty
  | .obj fs => !fs.isEmpty

def isObj : Json → Bool
  | .obj _ => true
  | _ => false

def asObj : Json → List (String × Json)
  | .obj fs => fs
  | _ => []

/-- A decoded post/update object: a Python dict (unique keys in practice;
`lookup` takes the first binding, as dict access does). -/
abbrev Post := List (String × Json)

/-- `linkedin_posts.csv` as structured content: the header line and the data
rows, each row carrying a value for every header field. -/
structure PostsFile where
  fieldnames : List String
  rows : List (List (String × Json))

/-- `fieldnames = set(); for post in posts: fieldnames.update(post.keys());
fieldnames = list(fieldnames)`.  Python's set iteration order is unspecified;
the embedding fixes the deterministic refinement "first occurrence order". -/
def unionFieldnames (posts : List Post) : List String :=
  (posts.foldl (fun acc p => acc ++ p.map Prod.fst) []).eraseDups

/-- `{field: post.get(field, '') for field in fieldnames}`. -/
def renderRow (fieldnames : List String) (p : Post) : List (String × Json) :=
  fieldnames.map (fun fld => (fld, (p.lookup fld).getD (.str "")))

/-- `save_posts_data`: an empty batch returns 0 untouched; a nonempty batch
opens the CSV in `w` mode (truncating) and writes the batch's rows under the
batch-wide field union.  Result: (return value, file state after, whether a
write to the posts file happened). -/
def save_posts_data (posts : List Post) (file : Option PostsFile) :
    Nat × Option PostsFile × Bool :=
  if posts.isEmpty then (0, file, false)
  else
    let fieldnames := unionFieldnames posts
    (posts.length, some ⟨fieldnames, posts.map (renderRow fieldnames)⟩, true)

/-- Outcome of `requests.get(...)` / `raise_for_status()` / `r.json()` on the
posts API: an exception, or a decoded JSON payload. -/
inductive ApiResult
  | transportError
  | payload (data : Json)

/-- `fetch_linkedin_posts` from the decoded payload on: the transport
exception and every exception raised inside (e.g. `data[0].get` on a
non-dict, iterating non-dict posts) is caught by the enclosing `except` and
yields `None` with the file untouched. -/
def fetch_linkedin_posts (r : ApiResult) (file : Option PostsFile) :
    Option Nat × Option PostsFile :=
  match r with
  | .transportError => (none, file)
  | .payload data =>
    match data with
    | .arr (first :: _) =>
      match first with
      | .obj fs =>
        let updates := (fs.lookup "updates").getD (.arr [])
        if updates.truthy then
          match updates with
          | .arr ps =>
            if ps.all isObj then
              let s := save_posts_data (ps.map asObj) file
              (some s.1, s.2.1)
            else (none, file)
          | _ => (none, file)
        else (some 0, file)
      | _ => (none, file)
    | _ => (none, file)

/-! ## The follower store -/

def LINKEDIN_URL : String := "https://www.linkedin.com/company/extrastaff-recruitment"

def FOLLOWERS_CSV : String := "linkedin_followers.csv"

def POSTS_CSV : String := "linkedin_posts.csv"

structure FollowerRow where
  timestamp : String
  linkedin_url : String
  followers : Int
deriving DecidableEq

/-- `linkedin_followers.csv` as structured content. -/
structure FollowersFile where
  header : Bool
  rows : List FollowerRow
deriving DecidableEq

/-- `save_follower_data`: `exists = os.path.isfile(...)`; open in `a` mode
(creating the file if absent), write the header iff the file did not exist,
then write the one row.  Result: (return value, file after, header written). -/
def save_follower_data (ts : String) (followers : Int) (file : Option FollowersFile) :
    Int × FollowersFile × Bool :=
  let row : FollowerRow := ⟨ts, LINKEDIN_URL, followers⟩
  match file with
  | none => (followers, ⟨true, [row]⟩, true)
  | some f => (followers, ⟨f.header, f.rows ++ [row]⟩, false)

/-- `fetch_linkedin_followers`: `if followers:` — Python truthiness, so both
`None` and `0` take the failure branch and nothing is saved. -/
def fetch_linkedin_followers (fetch : FetchResult) (ts : String)
    (file : Option FollowersFile) : Option Int × Option FollowersFile :=
  match get_followers fetch with
  | some n =>
    if !(n = 0) then
      let s := save_follower_data ts n file
      (some s.1, some s.2.1)
    else (none, file)
  | none => (none, file)

/-! ## Remote sync -/

/-- The `csv-files` bucket: remote objects as name/content pairs. -/
abbrev Remote := List (String × String)

def lookupObject (name : String) (r : Remote) : Option String :=
  r.lookup name

/-- `client.storage.from_(BUCKET_NAME).remove([file_name])`: afterwards no
object of that name remains; the caller swallows any exception, so absence of
the object is a non-error outcome. -/
def removeObject (name : String) (r : Remote) : Remote :=
  r.filter (fun p => !(p.1 = name))

/-- `os.path.basename`: the part after the last path separator. -/
def basename (path : String) : String :=
  (path.split (fun c => c = '/')).getLastD ""

/-- `upload_csv_to_supabase`.  Oracles for the external failure modes:
`clientOk` is whether `get_supabase_client()` produced a client, and
`uploadFails` is whether the final `upload` call raises (network/auth/server
error, caught by the enclosing `except`, which returns `False`).
`localContent` is the result of reading the local file (`none`: `open`
raised, caught by the same `except`).  The delete step runs inside its own
`try/except` whose failure is ignored. -/
def upload_csv_to_supabase (clientOk uploadFails : Bool)
    (localContent : Option String) (filePath : String) (remote : Remote) :
    Bool × Remote :=
  let fileName := basename filePath
  if !clientOk then (false, remote)
  else
    match localContent with
    | none => (false, remote)
    | some bytes =>
      let r1 := removeObject fileName remote
      if uploadFails then (false, r1)
      else (true, (fileName, bytes) :: r1)

/-- Local file system plus remote bucket. -/
structure World where
  followersFile : Option FollowersFile
  postsFile : Option PostsFile
  remote : Remote

/-- `upload_all_csvs`: uploads each CSV that exists (followers first), skips
absent ones with a warning.  The serialization of a store file to CSV bytes
(`csv` module encoding) is an out-of-scope collaborator (spec section 1) and
is passed in as `serF` / `serP`.  The local files are only read. -/
def upload_all_csvs (clientOk fFails pFails : Bool)
    (serF : FollowersFile → String) (serP : PostsFile → String) (w : World) :
    (Option Bool × Option Bool) × World :=
  let fStep : Option Bool × Remote :=
    match w.followersFile with
    | some f =>
      let u := upload_csv_to_supabase clientOk fFails (some (serF f)) FOLLOWERS_CSV w.remote
      (some u.1, u.2)
    | none => (none, w.remote)
  let pStep : Option Bool × Remote :=
    match w.postsFile with
    | some f =>
      let u := upload_csv_to_supabase clientOk pFails (some (serP f)) POSTS_CSV fStep.2
      (some u.1, u.2)
    | none => (none, fStep.2)
  ((fStep.1, pStep.1), ⟨w.followersFile, w.postsFile, pStep.2⟩)

/-! ## The entry point -/

/-- External-world inputs consumed by one invocation of `main`. -/
structure Env where
  clientOk : Bool
  followerFetch : FetchResult
  postsApi : ApiResult
  fUploadFails : Bool
  pUploadFails : Bool
  now : String

inductive JobTag
  | followerJob
  | postJob
deriving DecidableEq

structure MainResult where
  status : String
  followers : Option Int
  posts : Option Nat

/-- The source's `main` (the name `main` is reserved by Lean for programs):
tests the client, runs the follower job once, the post job once, uploads the
CSVs when the client is available, logs a summary and returns a status
record.  The third component records, in order, the jobs `main` ran. -/
def mainEntry (env : Env) (serF : FollowersFile → String) (serP : PostsFile → String)
    (w : World) : MainResult × World × List JobTag :=
  let fRes := fetch_linkedin_followers env.followerFetch env.now w.followersFile
  let w1 : World := ⟨fRes.2, w.postsFile, w.remote⟩
  let pRes := fetch_linkedin_posts env.postsApi w1.postsFile
  let w2 : World := ⟨w1.followersFile, pRes.2, w1.remote⟩
  let w3 := if env.clientOk then
      (upload_all_csvs true env.fUploadFails env.pUploadFails serF serP w2).2
    else w2
  (⟨"success", fRes.1, pRes.1⟩, w3, [.followerJob, .postJob])

/-! ## Derived run functions for the sequence-shaped claims -/

def rowsOpt : Option FollowersFile → List FollowerRow
  | none => []
  | some f => f.rows

def mkFollowerRow (c : String × Int) : FollowerRow :=
  ⟨c.1, LINKEDIN_URL, c.2⟩

/-- Run a sequence of `save_follower_data` calls from a starting file state;
also count how many header writes occurred along the way. -/
def runAppends : List (String × Int) → Option FollowersFile → Option FollowersFile × Nat
  | [], file => (file, 0)
  | c :: cs, file =>
    let s := save_follower_data c.1 c.2 file
    let rest := runAppends cs (some s.2.1)
    (rest.1, (if s.2.2 then 1 else 0) + rest.2)

/-- Run a sequence of `save_posts_data` calls from a starting file state. -/
def runMerges (batches : List (List Post)) (file : Option PostsFile) : Option PostsFile :=
  batches.foldl (fun f b => (save_posts_data b f).2.1) file

/-- The last nonempty batch of a sequence, if any. -/
def lastNonempty : List (List Post) → Option (List Post)
  | [] => none
  | b :: bs =>
    match lastNonempty bs with
    | some r => some r
    | none => if b.isEmpty then none else some b

/-- The posts file `save_posts_data` writes for a nonempty batch. -/
def renderStore (posts : List Post) : PostsFile :=
  ⟨unionFieldnames posts, posts.map (renderRow (unionFieldnames posts))⟩

/-- The number of distinct string values of field `key` across all posts ever
submitted in `batches`. -/
def distinctKeyCount (key : String) (batches : List (List Post)) : Nat :=
  ((batches.foldl (fun acc b => acc ++ b) []).filterMap
    (fun p =>
      match p.lookup key with
      | some (.str s) => some s
      | _ => none)).eraseDups.length

def isNonemptyArr : Json → Bool
  | .arr (_ :: _) => true
  | _ => false

/-! ## Theorems for the claims -/

/-- C1: a successful sync — client available, remote write succeeds — leaves
the remote object named by the file's basename containing exactly the local
file's bytes, for every prior remote state (so in particular whether or not
an object of that name already existed, and whatever its prior content), and
reports success; the best-effort delete never blocks the create (when the
object is absent, `removeObject` is the identity and the create still runs). -/
theorem upload_csv_overwrites (content filePath : String) (remote : Remote) :
    (upload_csv_to_supabase true false (some content) filePath remote).1 = true ∧
    lookupObject (basename filePath)
      (upload_csv_to_supabase true false (some content) filePath remote).2 = some content := by
  constructor
  · simp [upload_csv_to_supabase]
  · simp [upload_csv_to_supabase, lookupObject, List.lookup]

/-- C9: if the final remote write step fails, the sync call returns `False`
to its caller (it is a total function of the modelled outcomes — the `except`
swallows the exception, nothing propagates past the job), and the local
stores are unchanged by the sync: `upload_all_csvs` only reads them. -/
theorem upload_failure_reported (clientOk : Bool) (localContent : Option String)
    (fileName : String) (remote : Remote) :
    (upload_csv_to_supabase clientOk true localContent fileName remote).1 = false ∧
    ∀ (fF pF : Bool) (serF : FollowersFile → String) (serP : PostsFile → String) (w : World),
      (upload_all_csvs clientOk fF pF serF serP w).2.followersFile = w.followersFile ∧
      (upload_all_csvs clientOk fF pF serF serP w).2.postsFile = w.postsFile := by
  refine ⟨?_, fun fF pF serF serP w => ⟨rfl, rfl⟩⟩
  cases clientOk
  · simp [upload_csv_to_supabase]
  · cases localContent <;> simp [upload_csv_to_supabase]

/-- C7: a merge with zero new records returns 0, performs no write to the
posts file (the state is returned untouched and the write flag is `false`),
and a world whose local files were never written triggers no upload at all:
`upload_all_csvs` skips absent files and leaves the remote unchanged. -/
theorem save_posts_empty_noop (file : Option PostsFile) :
    save_posts_data [] file = (0, file, false) ∧
    ∀ (cok fF pF : Bool) (serF : FollowersFile → String) (serP : PostsFile → String)
      (rem : Remote),
      upload_all_csvs cok fF pF serF serP ⟨none, none, rem⟩ =
        ((none, none), ⟨none, none, rem⟩) := by
  exact ⟨rfl, fun cok fF pF serF serP rem => rfl⟩

/-- C10: when the extractor successfully parses a follower count of 0, the
follower job takes the `if followers:` failure branch exactly as for an
absent value: nothing is appended to the follower store and the job returns
`None`. -/
theorem zero_followers_not_persisted (fetch : FetchResult) (ts : String)
    (file : Option FollowersFile) (h : get_followers fetch = some 0) :
    fetch_linkedin_followers fetch ts file = (none, file) := by
  simp [fetch_linkedin_followers, h]

/-- Witness for C10: a body whose follower count parses to 0. -/
theorem zero_followers_not_persisted_witness :
    fetch_linkedin_followers (.response 200 "0 followers") "2026-01-01" none = (none, none) :=
  zero_followers_not_persisted (.response 200 "0 followers") "2026-01-01" none (by decide)

/-- C6: a payload whose top level is not a (nonempty) array resolves to the
error result `None` with no records persisted — the posts file is untouched —
while a well-formed array whose nested `updates` collection is absent or
empty resolves to `0` with the file untouched, a distinct, non-error
outcome. -/
theorem decode_failure_vs_empty (data : Json) (file : Option PostsFile) :
    (isNonemptyArr data = false →
      fetch_linkedin_posts (.payload data) file = (none, file)) ∧
    (∀ fs rest, data = .arr (.obj fs :: rest) →
      ((fs.lookup "updates").getD (.arr [])).truthy = false →
      fetch_linkedin_posts (.payload data) file = (some 0, file)) := by
  constructor
  · intro h
    match data with
    | .null => rfl
    | .bool b => rfl
    | .num n => rfl
    | .str s => rfl
    | .arr [] => rfl
    | .arr (x :: xs) => simp [isNonemptyArr] at h
    | .obj fs => rfl
  · rintro fs rest rfl h
    simp [fetch_linkedin_posts, h]

/-- Witness for C6: a non-array payload fails; an array whose first element
has no `updates` key resolves to the empty result. -/
theorem decode_failure_vs_empty_witness :
    fetch_linkedin_posts (.payload (.obj [])) none = (none, none) ∧
    fetch_linkedin_posts (.payload (.arr [.obj []])) none = (some 0, none) :=
  ⟨(decode_failure_vs_empty (.obj []) none).1 rfl,
   (decode_failure_vs_empty (.arr [.obj []]) none).2 [] [] rfl rfl⟩

theorem save_follower_header_flag (ts : String) (n : Int) (f : Option FollowersFile) :
    (save_follower_data ts n f).2.2 = f.isNone := by
  cases f <;> rfl

theorem runAppends_rows (calls : List (String × Int)) (file : Option FollowersFile) :
    rowsOpt (runAppends calls file).1 = rowsOpt file ++ calls.map mkFollowerRow := by
  induction calls generalizing file with
  | nil => simp [runAppends]
  | cons c cs ih =>
    have h := ih (some (save_follower_data c.1 c.2 file).2.1)
    simp only [runAppends]
    rw [h]
    cases file <;> simp [save_follower_data, rowsOpt, mkFollowerRow]

theorem runAppends_headerWrites (calls : List (String × Int)) (file : Option FollowersFile) :
    (runAppends calls file).2 = if file.isNone && !calls.isEmpty then 1 else 0 := by
  induction calls generalizing file with
  | nil => cases file <;> simp [runAppends]
  | cons c cs ih =>
    have h := ih (some (save_follower_data c.1 c.2 file).2.1)
    simp only [runAppends]
    rw [h]
    cases file <;> simp [save_follower_data]

/-- C3: over any sequence of append calls from any prior file state, the
final row list is the prior row list followed by one row per call in call
order — so the row count grows by exactly the number of calls, prior rows are
preserved unchanged as a prefix, and rows are never reordered or truncated —
and the header-write count over the run is 1 when the file was absent and at
least one call was made, 0 otherwise; a single call writes the header iff the
file did not exist before it. -/
theorem append_only_store (calls : List (String × Int)) (file : Option FollowersFile) :
    rowsOpt (runAppends calls file).1 = rowsOpt file ++ calls.map mkFollowerRow ∧
    (runAppends calls file).2 = (if file.isNone && !calls.isEmpty then 1 else 0) ∧
    ∀ (ts : String) (n : Int) (f : Option FollowersFile),
      (save_follower_data ts n f).2.2 = f.isNone :=
  ⟨runAppends_rows calls file, runAppends_headerWrites calls file,
   fun ts n f => save_follower_header_flag ts n f⟩

theorem save_posts_state (b : List Post) (file : Option PostsFile) :
    (save_posts_data b file).2.1 = if b.isEmpty then file else some (renderStore b) := by
  by_cases h : b.isEmpty <;> simp [save_posts_data, h, renderStore]

def postA : Post := [("uniqueId", .str "a"), ("text", .str "x")]

def postB : Post := [("uniqueId", .str "b"), ("text", .str "z")]

/-- C2 counterexample: `save_posts_data` never reads the existing file — it
truncates and rewrites with only the new batch.  Submitting `postA` (id "a")
then `postB` (id "b") leaves a store of 1 row, not the 2 rows the claim's
distinct-ids count demands, and record "a" is gone entirely. -/
theorem merge_no_dedup_counterexample :
    runMerges [[postA], [postB]] none = some (renderStore [postB]) ∧
    (renderStore [postB]).rows.length = 1 ∧
    distinctKeyCount "uniqueId" [[postA], [postB]] = 2 ∧
    (renderStore [postB]).rows.length ≠ distinctKeyCount "uniqueId" [[postA], [postB]] := by
  refine ⟨rfl, rfl, rfl, by decide⟩

/-- C2 amended: a merge call with a nonempty batch replaces the persisted
content wholesale — field-name union and empty back-fill are computed over
that batch alone — and an empty batch leaves the store untouched; hence after
any sequence of calls the store holds exactly the rendering of the last
nonempty batch (or the initial state if there was none), not the union of all
batches keyed by uniqueId. -/
theorem merge_overwrites_with_last (batches : List (List Post)) (file : Option PostsFile) :
    runMerges batches file =
      match lastNonempty batches with
      | none => file
      | some b => some (renderStore b) := by
  induction batches generalizing file with
  | nil => rfl
  | cons b bs ih =>
    have h : runMerges (b :: bs) file = runMerges bs ((save_posts_data b file).2.1) := rfl
    rw [h, ih ((save_posts_data b file).2.1), save_posts_state]
    rcases hlb : lastNonempty bs with _ | r
    · by_cases hb : b.isEmpty <;> simp [lastNonempty, hlb, hb]
    · by_cases hb : b.isEmpty <;> simp [lastNonempty, hlb, hb]

/-- Pattern 1 never matches at the end of the text. -/
theorem matchP1At_nil : matchP1At [] = none := rfl

/-- `re.search` semantics: if pattern 1 matches at position `i` and at no
earlier position, the search returns that match's group. -/
theorem searchP1_first (cs : List Char) (i : Nat) (g : List Char)
    (hm : matchP1At (cs.drop i) = some g)
    (hf : ∀ j, j < i → matchP1At (cs.drop j) = none) :
    searchP1 cs = some g := by
  induction cs generalizing i with
  | nil =>
    rw [List.drop_nil, matchP1At_nil] at hm
    cases hm
  | cons c cs ih =>
    cases i with
    | zero =>
      rw [List.drop_zero] at hm
      simp [searchP1, hm]
    | succ i =>
      have h0 := hf 0 (Nat.succ_pos i)
      rw [List.drop_zero] at h0
      simp only [searchP1, h0]
      exact ih i (by simpa using hm) (fun j hj => by simpa using hf (j + 1) (Nat.succ_lt_succ hj))

/-- C4: whenever the text contains an occurrence of pattern 1 — an integer,
with or without comma grouping, then whitespace, then the case-insensitive
anchor `followers` — starting at position `i` and at no earlier position (the
first match), the extractor returns exactly that occurrence's integer with
the grouping commas stripped; pattern 2 is never consulted after this
success, since the result is fixed by the pattern-1 match alone. -/
theorem extract_followers_first_match (t : String) (i : Nat) (g : List Char)
    (hm : matchP1At (t.toList.drop i) = some g)
    (hf : ∀ j, j < i → matchP1At (t.toList.drop j) = none) :
    extract_followers t = some (groupToInt g) := by
  have h : searchP1 t.data = some g := searchP1_first t.toList i g hm hf
  simp [extract_followers, h]

/-- Witness for C4: the spec's scenario, `"1,234 followers are following this
page"` yields `1234`. -/
theorem extract_followers_first_match_witness :
    extract_followers "1,234 followers are following this page" = some 1234 :=
  (extract_followers_first_match "1,234 followers are following this page" 0
    ("1,234".toList) (by decide) (fun j hj => absurd hj (Nat.not_lt_zero j))).trans
    (by decide)

theorem groupToInt_nonneg (g : List Char) : 0 ≤ groupToInt g :=
  Int.ofNat_nonneg _

theorem extract_followers_nonneg (t : String) (n : Int)
    (h : extract_followers t = some n) : 0 ≤ n := by
  unfold extract_followers at h
  rcases h1 : searchP1 t.toList with _ | g <;> rw [h1] at h
  · rcases h2 : searchP2 t.toList with _ | g <;> rw [h2] at h
    · cases h
    · cases h
      exact groupToInt_nonneg g
  · cases h
    exact groupToInt_nonneg g

/-- C5: the extractor is a total function into an optional integer: when
neither recognition pattern matches anywhere in the text it returns `none`
(no exception escapes — every modelled outcome produces a value), any value
it does return is non-negative, and the fetch wrapper resolves transport
errors and non-200 statuses (the authwall / access-restriction cases) to
`none` as well. -/
theorem extractor_total_optional (t : String) :
    (searchP1 t.toList = none → searchP2 t.toList = none → extract_followers t = none) ∧
    (∀ n : Int, extract_followers t = some n → 0 ≤ n) ∧
    (∀ (status : Nat) (body : String), status ≠ 200 →
      get_followers (.response status body) = none) ∧
    get_followers .transportError = none ∧
    (∀ (r : FetchResult) (n : Int), get_followers r = some n → 0 ≤ n) := by
  refine ⟨fun h1 h2 => by
      have h1' : searchP1 t.data = none := h1
      have h2' : searchP2 t.data = none := h2
      simp [extract_followers, h1', h2'],
    fun n h => extract_followers_nonneg t n h,
    fun status body hs => by simp [get_followers, hs],
    rfl,
    fun r n h => ?_⟩
  cases r with
  | transportError => cases h
  | response status body =>
    by_cases hs : status = 200
    · subst hs
      simp [get_followers] at h
      exact extract_followers_nonneg body n h
    · simp [get_followers, hs] at h

/-- Witness for C5: a pattern miss resolves to `none`, a non-200 status
resolves to `none`, and a successful parse is non-negative. -/
theorem extractor_total_optional_witness :
    extract_followers "nothing to see here" = none ∧
    get_followers (.response 403 "redirected to the authwall") = none ∧
    (0 : Int) ≤ 1234 :=
  ⟨(extractor_total_optional "nothing to see here").1 (by decide) (by decide),
   (extractor_total_optional "").2.2.1 403 "redirected to the authwall" (by decide),
   (extractor_total_optional "1,234 followers are following this page").2.1 1234 (by decide)⟩

/-- C8 counterexample: the claim asserts `main` enters a scheduling loop with
no terminal state; but the source's `main` is straight-line — at this
concrete input it runs the two jobs once each and returns a terminal summary
record, so the call does reach a terminal state. -/
theorem main_terminates_counterexample :
    (mainEntry ⟨true, .transportError, .transportError, false, false, "2026-01-01"⟩
      (fun _ => "") (fun _ => "") ⟨none, none, []⟩).1.status = "success" ∧
    (mainEntry ⟨true, .transportError, .transportError, false, false, "2026-01-01"⟩
      (fun _ => "") (fun _ => "") ⟨none, none, []⟩).2.2 = [.followerJob, .postJob] :=
  ⟨rfl, rfl⟩

/-- C8 amended: the single entry point runs the follower job once, then the
post job once — exactly once each, in that order — then (when the client is
available) uploads the local files, and returns a summary record whose fields
are the two jobs' results; there is no scheduling loop, the invocation
terminates after this single pass. -/
theorem main_single_pass (env : Env) (serF : FollowersFile → String)
    (serP : PostsFile → String) (w : World) :
    (mainEntry env serF serP w).2.2 = [.followerJob, .postJob] ∧
    (mainEntry env serF serP w).1.status = "success" ∧
    (mainEntry env serF serP w).1.followers =
      (fetch_linkedin_followers env.followerFetch env.now w.followersFile).1 ∧
    (mainEntry env serF serP w).1.posts =
      (fetch_linkedin_posts env.postsApi w.postsFile).1 :=
  ⟨rfl, rfl, rfl, rfl⟩
